import Mathlib

/-!
Shallow embedding of the live-chat polling and quota-scheduling core of
`youtube_client.py` (class `YouTubeClient`), together with theorems checking
the specification's claims about it.

Modelling conventions:
- Python floats on the quantities involved (seconds, backoff factors) are
  modelled as rationals `ℚ`; Python ints as `ℤ` (`//` is `Int.fdiv`).
- Remote calls are parametrised by an environment giving each call's outcome;
  `none` / `Except.error` stands for a raised `HttpError` (or other exception).
- Side effects (credential refresh, remote calls, sleeps, handler dispatch,
  file writes) are recorded in an explicit effect trace.
- Python truthiness on optional strings (`if not x`) is `truthy` below:
  `None` and `""` are falsy.
-/

namespace AxiBot

/-- Chat messages are opaque payloads handed to the handler; identity only. -/
abbrev Msg := Nat

/-- The only exception kinds the embedded operations raise to their caller. -/
inductive PyError
  | valueError
  | httpError
  deriving DecidableEq, Repr

/-- Python truthiness of an optional string: `None` and `""` are falsy. -/
def truthy : Option String → Bool
  | none => false
  | some s => s ≠ ""

/-- One response of `liveChatMessages().list`: lines 268-273 of
`youtube_client.py`. `pollingIntervalMillis` is `none` when the field is
absent from the response. -/
structure ChatPage where
  items : List Msg
  pollingIntervalMillis : Option ℚ
  nextPageToken : Option String
  deriving DecidableEq, Repr

/-- Observable side effects of the client, in the order they happen. -/
inductive Effect
  | refresh
  | fetch (pageToken : Option String)
  | dispatch (m : Msg)
  | sleep (d : ℚ)
  | insertMessage
  | writeTokenFile
  | rebuildClient
  deriving DecidableEq, Repr

/-- `polling` bound enforcement, lines 284-289: raise to `min_poll` when below,
then cut to `max_poll` when above. -/
def clampPolling (min_poll max_poll p : ℚ) : ℚ :=
  let p1 := if p < min_poll then min_poll else p
  if max_poll < p1 then max_poll else p1

/-- Sleep computed after a successful fetch, lines 283-289:
`resp.get("pollingIntervalMillis", 2000) / 1000.0`, bounded. -/
def successSleep (min_poll max_poll : ℚ) (page : ChatPage) : ℚ :=
  clampPolling min_poll max_poll (page.pollingIntervalMillis.getD 2000 / 1000)

/-- Backoff update after a failed fetch, lines 305 and 310:
`error_backoff = min(error_backoff * 2.0, max_poll)`. -/
def backoffNext (max_poll b : ℚ) : ℚ :=
  min (b * 2) max_poll

/-- Sleep performed on the error path, lines 304 and 309:
`time.sleep(min(max(1.0, error_backoff), max_poll))`. -/
def backoffSleep (max_poll b : ℚ) : ℚ :=
  min (max 1 b) max_poll

/-- The dispatch pass over one page, lines 276-281:
`for it in items: try: on_message(it) except: log`.  The inner `try`
swallows any exception the handler raises (first `match`), so the loop body
never produces the `Except.error` that would abort the remaining items.
Returns the messages the handler was invoked on, in order, and the exception
that escaped the page loop, if any. -/
def dispatchAll (on_message : Msg → Except Unit Unit) :
    List Msg → List Msg × Option Unit
  | [] => ([], none)
  | m :: rest =>
    let body : Except Unit Unit :=
      match on_message m with
      | .ok _ => .ok ()
      | .error _ => .ok ()
    match body with
    | .ok _ =>
      let r := dispatchAll on_message rest
      (m :: r.1, r.2)
    | .error e => ([m], some e)

/-- The `while True` loop of `poll_chat`, lines 266-310, run for `fuel`
iterations.  `env k` is the outcome of the k-th `liveChatMessages().list`
call: `some page` on success, `none` when it raises (`HttpError` branch and
the generic branch behave identically).  On success the loop dispatches every
item, adopts `nextPageToken`, resets the backoff to `1.0` and sleeps the
clamped server interval; on failure it sleeps the backoff amount, doubles the
backoff (capped) and keeps `page_token` unchanged. -/
def pollLoop (min_poll max_poll : ℚ) (on_message : Msg → Except Unit Unit)
    (env : Nat → Option ChatPage) :
    Nat → Option String → ℚ → Nat → List Effect
  | _, _, _, 0 => []
  | k, page_token, error_backoff, fuel + 1 =>
    match env k with
    | some page =>
      Effect.fetch page_token ::
        ((dispatchAll on_message page.items).1.map Effect.dispatch ++
          (Effect.sleep (successSleep min_poll max_poll page) ::
            pollLoop min_poll max_poll on_message env (k + 1)
              page.nextPageToken 1 fuel))
    | none =>
      Effect.fetch page_token ::
        Effect.sleep (backoffSleep max_poll error_backoff) ::
          pollLoop min_poll max_poll on_message env (k + 1) page_token
            (backoffNext max_poll error_backoff) fuel

/-- `self.min_poll_seconds` default, line 59. -/
def min_poll_seconds_default : ℚ := 2

/-- `self.max_poll_seconds` default, line 60. -/
def max_poll_seconds_default : ℚ := 60

/-- `poll_chat`, lines 247-310.  `cfgMin`/`cfgMax` are the instance fields
`self.min_poll_seconds` / `self.max_poll_seconds`; the optional per-call
bounds default to them (lines 263-264).  An untruthy `live_chat_id` raises
`ValueError` before any effect (lines 255-256); otherwise the credentials are
refreshed once (line 257) and the loop runs with `page_token = start_page_token`
and `error_backoff = 1.0` (lines 261-262). -/
def poll_chat (cfgMin cfgMax : ℚ) (on_message : Msg → Except Unit Unit)
    (env : Nat → Option ChatPage) (live_chat_id : Option String)
    (start_page_token : Option String)
    (min_poll_seconds max_poll_seconds : Option ℚ) (fuel : Nat) :
    List Effect × Option PyError :=
  if ¬ truthy live_chat_id then ([], some PyError.valueError)
  else
    let min_poll := min_poll_seconds.getD cfgMin
    let max_poll := max_poll_seconds.getD cfgMax
    (Effect.refresh ::
      pollLoop min_poll max_poll on_message env 0 start_page_token 1 fuel,
     none)

/-- `allowed_requests`, line 327:
`max(1, target_units // max(1, units_per_request))` (Python `//` on ints is
floor division, `Int.fdiv`). -/
def allowed_requests (target_units units_per_request : ℤ) : ℤ :=
  max 1 (Int.fdiv target_units (max 1 units_per_request))

/-- `interval_by_quota` before clamping, line 328 (true division). -/
def interval_by_quota (target_units units_per_request duration_seconds : ℤ) : ℚ :=
  (duration_seconds : ℚ) / ((allowed_requests target_units units_per_request : ℤ) : ℚ)

/-- Clamp of the quota interval, line 330:
`max(self.min_poll_seconds, min(interval_by_quota, self.max_poll_seconds))`. -/
def clamped_quota_interval (cfgMin cfgMax : ℚ)
    (target_units units_per_request duration_seconds : ℤ) : ℚ :=
  max cfgMin (min (interval_by_quota target_units units_per_request duration_seconds) cfgMax)

/-- The `_on_message` wrapper, lines 336-341: calls the user handler and
swallows any exception it raises. -/
def wrapHandler (on_message : Msg → Except Unit Unit) : Msg → Except Unit Unit :=
  fun m =>
    match on_message m with
    | _ => Except.ok ()

/-- `poll_chat_with_quota`, lines 312-344.  Rejects an untruthy chat id and a
non-positive duration before any effect (lines 321-324), computes the quota
interval (lines 327-330), then calls `poll_chat` with
`min_poll_seconds = interval_by_quota` and the other optional arguments left
at their defaults (line 344). -/
def poll_chat_with_quota (cfgMin cfgMax : ℚ) (on_message : Msg → Except Unit Unit)
    (env : Nat → Option ChatPage) (live_chat_id : Option String)
    (target_units duration_seconds units_per_request : ℤ) (fuel : Nat) :
    List Effect × Option PyError :=
  if ¬ truthy live_chat_id then ([], some PyError.valueError)
  else if duration_seconds ≤ 0 then ([], some PyError.valueError)
  else
    poll_chat cfgMin cfgMax (wrapHandler on_message) env live_chat_id none
      (some (clamped_quota_interval cfgMin cfgMax
        target_units units_per_request duration_seconds))
      none fuel

/-- `post_message`, lines 222-245.  `insertOutcome` is the result of the
`liveChatMessages().insert` call; an `HttpError` there is logged and
re-raised.  An untruthy chat id raises `ValueError` before any effect. -/
def post_message (insertOutcome : Except Unit Nat) (live_chat_id : Option String)
    (text : String) : List Effect × Except PyError Nat :=
  if ¬ truthy live_chat_id then ([], Except.error PyError.valueError)
  else
    ([Effect.refresh, Effect.insertMessage],
      match insertOutcome with
      | .ok r => .ok r
      | .error _ => .error PyError.httpError)

/-! ### Discovery caches -/

/-- One TTL cache entry: `(value, expires_at)`, shared shape of
`_cached_channel_id` and `_cached_live_chat_id`. -/
structure Cache (α : Type) where
  entry : Option (α × ℚ)
  deriving DecidableEq, Repr

/-- The write step of `set_channel_id` (lines 98-101) and of the caches'
populate sites (lines 125, 207): store `(value, now + ttl)`. -/
def Cache.set (c : Cache α) (now ttl : ℚ) (v : α) : Cache α :=
  { entry := some (v, now + ttl) }

/-- The read step shared by `_get_channel_id` (lines 108-112) and
`get_active_live_chat_id` (lines 161-165): return the value while
`now < expiry`, otherwise clear the entry and report absent. -/
def Cache.read (c : Cache α) (now : ℚ) : Option α × Cache α :=
  match c.entry with
  | none => (none, c)
  | some (v, expiry) =>
    if now < expiry then (some v, c) else (none, { entry := none })

/-! ### Live chat resolver -/

/-- The `liveStreamingDetails` sub-object of a `videos().list` item: each chat
id field may be missing (`none`) or present. -/
structure LiveStreamingDetails where
  activeLiveChatId : Option String
  liveChatId : Option String
  deriving DecidableEq, Repr

/-- Outcomes of the three remote calls `get_active_live_chat_id` makes, once
the caches are cold.  `searchItems` holds each search item's
`["id"].get("videoId")`; `videoItems` holds each video item's
`liveStreamingDetails` (present or absent). -/
structure ResolverEnv where
  channelItems : List String
  searchItems : List (Option String)
  videoItems : List (Option LiveStreamingDetails)
  deriving Repr

/-- Python `a or b` on two optional strings: `a` when truthy, else `b`.
Models line 201. -/
def pyOr (a b : Option String) : Option String :=
  if truthy a then a else b

/-- `_get_channel_id` on a cold cache, lines 118-124: `items[0]["id"]` of the
`channels().list(mine=True)` response, or `None` when `items` is empty. -/
def get_channel_id_fresh (env : ResolverEnv) : Option String :=
  env.channelItems.head?

/-- `get_active_live_chat_id` on cold caches, lines 171-208:
channel lookup → live search (`maxResults=1`) → `liveStreamingDetails`.
Absent channel or absent live search result give `(None, None)`; an empty
`videos().list` result or a details object without a truthy
`activeLiveChatId`/`liveChatId` give `(None, video_id)`. -/
def get_active_live_chat_id (env : ResolverEnv) :
    Option String × Option String :=
  let channel_id := get_channel_id_fresh env
  if ¬ truthy channel_id then (none, none)
  else
    match env.searchItems.head? with
    | none => (none, none)
    | some video_id =>
      match env.videoItems.head? with
      | none => (none, video_id)
      | some details? =>
        let details := details?.getD ⟨none, none⟩
        let live_chat_id := pyOr details.activeLiveChatId details.liveChatId
        if ¬ truthy live_chat_id then (none, video_id)
        else (live_chat_id, video_id)

/-! ### Credential gate -/

/-- The held credential: token value, expiry flag, refresh capability. -/
structure Creds where
  token : String
  expired : Bool
  refresh_token : Option String
  deriving DecidableEq, Repr

/-- Client state touched by `refresh_if_needed`: the in-memory credential,
the content of the token file at `TOKEN_PATH`, and a generation counter
bumped whenever the API handle is rebuilt (line 94). -/
structure ClientState where
  creds : Option Creds
  token_file : String
  youtube_generation : Nat
  deriving DecidableEq, Repr

/-- `self._creds.to_json()`: the serialized credential, determined by the
credential value; only its token component matters here. -/
def to_json (c : Creds) : String :=
  c.token

/-- `refresh_if_needed`, lines 78-96.  `refreshOutcome` is the result of
`self._creds.refresh(Request())`: `ok after` yields the token value after the
call, `error` means it raised.  The whole body is inside `try/except`, so a
refresh failure is caught (printed) and changes nothing.  On success the token
file is rewritten and the API handle rebuilt only when `after != before`. -/
def refresh_if_needed (st : ClientState) (refreshOutcome : Except Unit String) :
    ClientState × List Effect :=
  match st.creds with
  | none => (st, [])
  | some c =>
    if c.expired = true ∧ truthy c.refresh_token then
      match refreshOutcome with
      | .error _ => (st, [])
      | .ok after =>
        let before := c.token
        let creds1 : Creds := ⟨after, false, c.refresh_token⟩
        if after ≠ before then
          (⟨some creds1, to_json creds1, st.youtube_generation + 1⟩,
            [Effect.writeTokenFile, Effect.rebuildClient])
        else
          (⟨some creds1, st.token_file, st.youtube_generation⟩, [])
    else (st, [])

/-! ### Trace observations -/

/-- The sleep durations occurring in a trace, in order. -/
def sleepsOf (tr : List Effect) : List ℚ :=
  tr.filterMap fun e =>
    match e with
    | Effect.sleep d => some d
    | _ => none

/-- The page tokens of the fetch effects in a trace, in order. -/
def fetchTokens (tr : List Effect) : List (Option String) :=
  tr.filterMap fun e =>
    match e with
    | Effect.fetch t => some t
    | _ => none

/-- The messages dispatched to the handler in a trace, in order. -/
def dispatchedOf (tr : List Effect) : List Msg :=
  tr.filterMap fun e =>
    match e with
    | Effect.dispatch m => some m
    | _ => none

/-- Number of credential-gate consultations in a trace. -/
def countRefresh (tr : List Effect) : Nat :=
  tr.countP fun e => e = Effect.refresh

/-- Number of message-page fetches (remote `liveChatMessages().list` calls)
in a trace. -/
def countFetch (tr : List Effect) : Nat :=
  tr.countP fun e =>
    match e with
    | Effect.fetch _ => true
    | _ => false

/-- The claim that the loop consults the credential gate in every iteration
before fetching: it requires at least as many refresh effects as fetches. -/
def refreshEachIteration (tr : List Effect) : Prop :=
  countFetch tr ≤ countRefresh tr

/-! ## Helper lemmas -/

/-- The per-item `try/except` swallows handler exceptions, so the page pass
always reaches every item and no exception escapes. -/
theorem dispatchAll_eq (on_message : Msg → Except Unit Unit) (items : List Msg) :
    dispatchAll on_message items = (items, none) := by
  induction items with
  | nil => rfl
  | cons m rest ih =>
    cases h : on_message m <;> simp [dispatchAll, h, ih]

/-- Step equation of the loop on a successful fetch. -/
theorem pollLoop_success (min_poll max_poll : ℚ)
    (on_message : Msg → Except Unit Unit) (env : Nat → Option ChatPage)
    (k : Nat) (page_token : Option String) (error_backoff : ℚ) (fuel : Nat)
    (page : ChatPage) (henv : env k = some page) :
    pollLoop min_poll max_poll on_message env k page_token error_backoff (fuel + 1)
      = Effect.fetch page_token ::
          (page.items.map Effect.dispatch ++
            (Effect.sleep (successSleep min_poll max_poll page) ::
              pollLoop min_poll max_poll on_message env (k + 1)
                page.nextPageToken 1 fuel)) := by
  simp [pollLoop, henv, dispatchAll_eq]

/-- Step equation of the loop on a failed fetch. -/
theorem pollLoop_failure (min_poll max_poll : ℚ)
    (on_message : Msg → Except Unit Unit) (env : Nat → Option ChatPage)
    (k : Nat) (page_token : Option String) (error_backoff : ℚ) (fuel : Nat)
    (henv : env k = none) :
    pollLoop min_poll max_poll on_message env k page_token error_backoff (fuel + 1)
      = Effect.fetch page_token ::
          Effect.sleep (backoffSleep max_poll error_backoff) ::
            pollLoop min_poll max_poll on_message env (k + 1) page_token
              (backoffNext max_poll error_backoff) fuel := by
  simp [pollLoop, henv]

/-- When the bounds are ordered, the sequential bound enforcement of
lines 286-289 is the clamp `max min_poll (min p max_poll)`. -/
theorem clampPolling_eq_max_min (min_poll max_poll p : ℚ)
    (h : min_poll ≤ max_poll) :
    clampPolling min_poll max_poll p = max min_poll (min p max_poll) := by
  simp only [clampPolling, max_def, min_def]
  split_ifs <;> linarith

/-- A fetch effect contributes no sleep. -/
theorem sleepsOf_cons_fetch (t : Option String) (tr : List Effect) :
    sleepsOf (Effect.fetch t :: tr) = sleepsOf tr := rfl

/-- A sleep effect contributes its duration. -/
theorem sleepsOf_cons_sleep (d : ℚ) (tr : List Effect) :
    sleepsOf (Effect.sleep d :: tr) = d :: sleepsOf tr := rfl

/-- Dispatch effects contribute no sleep. -/
theorem sleepsOf_append_dispatch (ms : List Msg) (tr : List Effect) :
    sleepsOf (ms.map Effect.dispatch ++ tr) = sleepsOf tr := by
  induction ms with
  | nil => rfl
  | cons m rest ih => simp [sleepsOf, ih]

/-- A fetch effect contributes its page token. -/
theorem fetchTokens_cons_fetch (t : Option String) (tr : List Effect) :
    fetchTokens (Effect.fetch t :: tr) = t :: fetchTokens tr := rfl

/-- A sleep effect contributes no fetch token. -/
theorem fetchTokens_cons_sleep (d : ℚ) (tr : List Effect) :
    fetchTokens (Effect.sleep d :: tr) = fetchTokens tr := rfl

/-- With cap 60 and base 1, the n-th doubled backoff value is `min (2^n) 60`. -/
theorem backoffNext_iterate (n : ℕ) :
    (backoffNext 60)^[n] 1 = min ((2 : ℚ) ^ n) 60 := by
  induction n with
  | zero => norm_num
  | succ n ih =>
    rw [Function.iterate_succ_apply', ih, backoffNext,
      min_mul_of_nonneg _ _ (by norm_num : (0 : ℚ) ≤ 2), min_assoc]
    norm_num [pow_succ]

/-- Sleeps emitted when every fetch fails: the backoff sleep of the n-th
iterate of the doubling update. -/
theorem sleepsOf_pollLoop_fail (min_poll max_poll : ℚ)
    (on_message : Msg → Except Unit Unit) (k : Nat) (page_token : Option String)
    (error_backoff : ℚ) (fuel : Nat) :
    sleepsOf (pollLoop min_poll max_poll on_message (fun _ => none) k
        page_token error_backoff fuel)
      = (List.range fuel).map
          (fun n => backoffSleep max_poll ((backoffNext max_poll)^[n] error_backoff)) := by
  induction fuel generalizing k error_backoff with
  | zero => rfl
  | succ fuel ih =>
    rw [pollLoop_failure min_poll max_poll on_message (fun _ => none) k
      page_token error_backoff fuel rfl]
    rw [List.range_succ_eq_map, List.map_cons, List.map_map,
      sleepsOf_cons_fetch, sleepsOf_cons_sleep,
      ih (k + 1) (backoffNext max_poll error_backoff)]
    refine congrArg₂ _ (by simp) (List.map_congr_left fun n _ => ?_)
    simp [Function.comp, Function.iterate_succ_apply]

/-- Fetch tokens emitted when every fetch fails: the page token is never
changed by the backoff path. -/
theorem fetchTokens_pollLoop_fail (min_poll max_poll : ℚ)
    (on_message : Msg → Except Unit Unit) (k : Nat) (page_token : Option String)
    (error_backoff : ℚ) (fuel : Nat) :
    fetchTokens (pollLoop min_poll max_poll on_message (fun _ => none) k
        page_token error_backoff fuel)
      = List.replicate fuel page_token := by
  induction fuel generalizing k error_backoff with
  | zero => rfl
  | succ fuel ih =>
    rw [pollLoop_failure min_poll max_poll on_message (fun _ => none) k
      page_token error_backoff fuel rfl]
    rw [fetchTokens_cons_fetch, fetchTokens_cons_sleep,
      ih (k + 1) (backoffNext max_poll error_backoff), List.replicate_succ]

/-- A fetch effect is not a refresh. -/
theorem countRefresh_cons_fetch (t : Option String) (tr : List Effect) :
    countRefresh (Effect.fetch t :: tr) = countRefresh tr := by
  simp [countRefresh]

/-- A sleep effect is not a refresh. -/
theorem countRefresh_cons_sleep (d : ℚ) (tr : List Effect) :
    countRefresh (Effect.sleep d :: tr) = countRefresh tr := by
  simp [countRefresh]

/-- A refresh effect counts once. -/
theorem countRefresh_cons_refresh (tr : List Effect) :
    countRefresh (Effect.refresh :: tr) = countRefresh tr + 1 := by
  simp [countRefresh]

/-- Dispatch effects are not refreshes. -/
theorem countRefresh_append_dispatch (ms : List Msg) (tr : List Effect) :
    countRefresh (ms.map Effect.dispatch ++ tr) = countRefresh tr := by
  induction ms with
  | nil => rfl
  | cons m rest ih => simp [countRefresh, ih]

/-- The loop body never consults the credential gate: `refresh_if_needed` is
not called anywhere in lines 266-310. -/
theorem countRefresh_pollLoop (min_poll max_poll : ℚ)
    (on_message : Msg → Except Unit Unit) (env : Nat → Option ChatPage)
    (k : Nat) (page_token : Option String) (error_backoff : ℚ) (fuel : Nat) :
    countRefresh (pollLoop min_poll max_poll on_message env k page_token
        error_backoff fuel) = 0 := by
  induction fuel generalizing k page_token error_backoff with
  | zero => rfl
  | succ fuel ih =>
    cases henv : env k with
    | some page =>
      rw [pollLoop_success min_poll max_poll on_message env k page_token
        error_backoff fuel page henv, countRefresh_cons_fetch,
        countRefresh_append_dispatch, countRefresh_cons_sleep,
        ih (k + 1) page.nextPageToken 1]
    | none =>
      rw [pollLoop_failure min_poll max_poll on_message env k page_token
        error_backoff fuel henv, countRefresh_cons_fetch,
        countRefresh_cons_sleep,
        ih (k + 1) page_token (backoffNext max_poll error_backoff)]

/-! ## Claim theorems -/

/-- C5: after `set(v, t)` performed at time `s`, a cache read at elapsed time
`e` (i.e. at time `s + e`) returns `v` iff `e < t`; otherwise the read clears
the entry and returns absent; and `set(value, ttl)` stores `(value, now + ttl)`. -/
theorem cache_ttl_semantics (c : Cache String) (s t e : ℚ) (v : String) :
    (((c.set s t v).read (s + e)).1 = some v ↔ e < t) ∧
    (¬ e < t → (c.set s t v).read (s + e) = (none, { entry := none })) ∧
    (c.set s t v).entry = some (v, s + t) := by
  have hread : (c.set s t v).read (s + e)
      = if e < t then (some v, c.set s t v) else (none, { entry := none }) := by
    simp [Cache.set, Cache.read, add_lt_add_iff_left]
  refine ⟨?_, fun h => by rw [hread, if_neg h], rfl⟩
  rw [hread]
  by_cases h : e < t <;> simp [h]

/-- C5 witness: a value cached with TTL 5 is still returned 3 seconds later. -/
theorem cache_ttl_semantics_witness :
    (((Cache.mk (α := String) none).set 0 5 "UCchan").read (0 + 3)).1
      = some "UCchan" :=
  (cache_ttl_semantics ⟨none⟩ 0 5 3 "UCchan").1.mpr (by norm_num)

/-- C6: the resolver returns `(absent, absent)` without raising when the
channel lookup yields zero items or when no live video is found, and returns
`(absent, video_id)` when the video's live-streaming details are absent or
lack a truthy chat-id field. -/
theorem resolver_absent_results (env : ResolverEnv) :
    (env.channelItems = [] → get_active_live_chat_id env = (none, none)) ∧
    (env.searchItems = [] → get_active_live_chat_id env = (none, none)) ∧
    (∀ video_id details?,
      truthy (get_channel_id_fresh env) = true →
      env.searchItems.head? = some video_id →
      env.videoItems.head? = some details? →
      truthy (pyOr (details?.getD ⟨none, none⟩).activeLiveChatId
        (details?.getD ⟨none, none⟩).liveChatId) = false →
      get_active_live_chat_id env = (none, video_id)) ∧
    (∀ video_id,
      truthy (get_channel_id_fresh env) = true →
      env.searchItems.head? = some video_id →
      env.videoItems = [] →
      get_active_live_chat_id env = (none, video_id)) := by
  refine ⟨fun h => ?_, fun h => ?_,
    fun video_id details? hch hs hv hlc => ?_, fun video_id hch hs hv => ?_⟩
  · simp [get_active_live_chat_id, get_channel_id_fresh, h, truthy]
  · by_cases hch : truthy (get_channel_id_fresh env) = true
    · simp [get_active_live_chat_id, h, hch]
    · simp [get_active_live_chat_id, hch]
  · simp [get_active_live_chat_id, hch, hs, hv, hlc]
  · simp [get_active_live_chat_id, hch, hs, hv]

/-- C6 witness: with one channel item, one live search hit and a video whose
`liveStreamingDetails` object is missing both chat-id fields, the resolver
answers `(absent, video_id)`. -/
theorem resolver_absent_results_witness :
    get_active_live_chat_id
        ⟨["UC1"], [some "vid9"], [some ⟨none, none⟩]⟩
      = (none, some "vid9") :=
  (resolver_absent_results ⟨["UC1"], [some "vid9"], [some ⟨none, none⟩]⟩).2.2.1
    (some "vid9") (some ⟨none, none⟩) rfl rfl rfl rfl

/-- C7: when a refresh is performed, the token file is rewritten (and the API
handle rebuilt) iff the token value changed; with an unchanged token neither
the file content, the write effect, nor the handle generation changes; and a
refresh failure is caught, leaving the state untouched without raising. -/
theorem refresh_persists_only_on_change (st : ClientState) (c : Creds)
    (after : String) (hc : st.creds = some c) (hexp : c.expired = true)
    (hrt : truthy c.refresh_token = true) :
    (Effect.writeTokenFile ∈ (refresh_if_needed st (.ok after)).2 ↔
      after ≠ c.token) ∧
    (after = c.token →
      (refresh_if_needed st (.ok after)).2 = [] ∧
      (refresh_if_needed st (.ok after)).1.token_file = st.token_file ∧
      (refresh_if_needed st (.ok after)).1.youtube_generation
        = st.youtube_generation) ∧
    (∀ err : Unit, refresh_if_needed st (.error err) = (st, [])) := by
  obtain ⟨cr, tf, gen⟩ := st
  simp only at hc
  subst hc
  by_cases h : after = c.token <;>
    simp [refresh_if_needed, hexp, hrt, h]

/-- C7 witness: with an expired credential holding token "tokA", a refresh
yielding "tokB" rewrites the token file. -/
theorem refresh_persists_only_on_change_witness :
    Effect.writeTokenFile ∈
      (refresh_if_needed ⟨some ⟨"tokA", true, some "rt"⟩, "fileA", 0⟩
        (.ok "tokB")).2 :=
  (refresh_persists_only_on_change ⟨some ⟨"tokA", true, some "rt"⟩, "fileA", 0⟩
    ⟨"tokA", true, some "rt"⟩ "tokB" rfl rfl rfl).1.mpr (by decide)

/-- C9: with a usable chat id, `poll_chat_with_quota` raises `ValueError`
before any effect whenever `duration_seconds ≤ 0`, and raises nothing when
`duration_seconds > 0`. -/
theorem quota_duration_validation (cfgMin cfgMax : ℚ)
    (on_message : Msg → Except Unit Unit) (env : Nat → Option ChatPage)
    (live_chat_id : Option String) (target_units duration_seconds
      units_per_request : ℤ) (fuel : Nat)
    (hid : truthy live_chat_id = true) :
    (duration_seconds ≤ 0 →
      poll_chat_with_quota cfgMin cfgMax on_message env live_chat_id
          target_units duration_seconds units_per_request fuel
        = ([], some PyError.valueError)) ∧
    (0 < duration_seconds →
      (poll_chat_with_quota cfgMin cfgMax on_message env live_chat_id
          target_units duration_seconds units_per_request fuel).2 = none) := by
  constructor
  · intro hd
    simp [poll_chat_with_quota, hid, hd]
  · intro hd
    simp [poll_chat_with_quota, hid, hd.not_le, poll_chat]

/-- C9 witness: duration -5 is rejected with `ValueError` and no effects. -/
theorem quota_duration_validation_witness :
    poll_chat_with_quota 2 60 (fun _ => .ok ()) (fun _ => none) (some "chat")
        10000 (-5) 5 3
      = ([], some PyError.valueError) :=
  (quota_duration_validation 2 60 (fun _ => .ok ()) (fun _ => none)
    (some "chat") 10000 (-5) 5 3 rfl).1 (by norm_num)

/-- C10: with an empty or absent `live_chat_id`, each of `poll_chat`,
`poll_chat_with_quota` and `post_message` raises `ValueError` immediately,
before any refresh, remote call, state change or sleep (empty effect trace). -/
theorem empty_chat_id_rejection (cfgMin cfgMax : ℚ)
    (on_message : Msg → Except Unit Unit) (env : Nat → Option ChatPage)
    (insertOutcome : Except Unit Nat) (live_chat_id : Option String)
    (start_page_token : Option String) (mp Mp : Option ℚ) (text : String)
    (target_units duration_seconds units_per_request : ℤ) (fuel : Nat)
    (hid : truthy live_chat_id = false) :
    poll_chat cfgMin cfgMax on_message env live_chat_id start_page_token
        mp Mp fuel = ([], some PyError.valueError) ∧
    poll_chat_with_quota cfgMin cfgMax on_message env live_chat_id
        target_units duration_seconds units_per_request fuel
      = ([], some PyError.valueError) ∧
    post_message insertOutcome live_chat_id text
      = ([], .error PyError.valueError) := by
  refine ⟨?_, ?_, ?_⟩ <;>
    simp [poll_chat, poll_chat_with_quota, post_message, hid]

/-- C10 witness: the three operations each reject the empty chat id `""`. -/
theorem empty_chat_id_rejection_witness :
    poll_chat 2 60 (fun _ => .ok ()) (fun _ => none) (some "") none none none 4
        = ([], some PyError.valueError) ∧
    poll_chat_with_quota 2 60 (fun _ => .ok ()) (fun _ => none) (some "")
        10000 10800 5 4 = ([], some PyError.valueError) ∧
    post_message (.ok 0) (some "") "hello"
      = ([], .error PyError.valueError) :=
  empty_chat_id_rejection 2 60 (fun _ => .ok ()) (fun _ => none) (.ok 0)
    (some "") none none none "hello" 10000 10800 5 4 rfl

/-- C1: after every successful fetch the sleep equals the server-suggested
`pollingIntervalMillis / 1000` (defaulting to 2000ms when absent) clamped into
`[min_poll, max_poll]`; with a quota interval `q` clamped into the bounds, the
sleep taken with `min_poll = q` equals `max(clamped_server_s, q)` — the quota
floor never shortens the wait below the server's demand; and
`poll_chat_with_quota` indeed runs `poll_chat` with that `q` as the floor. -/
theorem poll_sleep_honors_server_and_quota :
    (∀ (min_poll max_poll : ℚ) (on_message : Msg → Except Unit Unit)
        (env : Nat → Option ChatPage) (k : Nat) (page_token : Option String)
        (error_backoff : ℚ) (fuel : Nat) (page : ChatPage),
      env k = some page →
      (sleepsOf (pollLoop min_poll max_poll on_message env k page_token
          error_backoff (fuel + 1))).head?
        = some (clampPolling min_poll max_poll
            (page.pollingIntervalMillis.getD 2000 / 1000))) ∧
    (∀ (min_poll max_poll i : ℚ) (page : ChatPage),
      min_poll ≤ max_poll →
      successSleep (max min_poll (min i max_poll)) max_poll page
        = max (successSleep min_poll max_poll page)
            (max min_poll (min i max_poll))) ∧
    (∀ (cfgMin cfgMax : ℚ) (on_message : Msg → Except Unit Unit)
        (env : Nat → Option ChatPage) (live_chat_id : Option String)
        (target_units duration_seconds units_per_request : ℤ) (fuel : Nat),
      truthy live_chat_id = true → 0 < duration_seconds →
      poll_chat_with_quota cfgMin cfgMax on_message env live_chat_id
          target_units duration_seconds units_per_request fuel
        = poll_chat cfgMin cfgMax (wrapHandler on_message) env live_chat_id
            none
            (some (clamped_quota_interval cfgMin cfgMax target_units
              units_per_request duration_seconds))
            none fuel) := by
  refine ⟨?_, ?_, ?_⟩
  · intro min_poll max_poll on_message env k page_token error_backoff fuel page henv
    rw [pollLoop_success min_poll max_poll on_message env k page_token
      error_backoff fuel page henv, sleepsOf_cons_fetch,
      sleepsOf_append_dispatch, sleepsOf_cons_sleep]
    simp [successSleep]
  · intro min_poll max_poll i page hmM
    have hq1 : min_poll ≤ max min_poll (min i max_poll) := le_max_left _ _
    have hq2 : max min_poll (min i max_poll) ≤ max_poll :=
      max_le hmM (min_le_right _ _)
    rw [successSleep, successSleep, clampPolling_eq_max_min _ _ _ hq2,
      clampPolling_eq_max_min _ _ _ hmM]
    rcases le_total min_poll
        (min (page.pollingIntervalMillis.getD 2000 / 1000) max_poll) with h | h
    · rw [max_eq_right h]
      exact max_comm _ _
    · rw [max_eq_left (h.trans hq1), max_eq_left h, max_eq_right hq1]
  · intro cfgMin cfgMax on_message env live_chat_id t d u fuel hid hd
    simp [poll_chat_with_quota, hid, hd.not_le]

/-- C1 witness: with server pacing 10000ms, bounds [2, 60] and quota floor 15,
the effective sleep is `max(10, 15) = 15`. -/
theorem poll_sleep_honors_server_and_quota_witness :
    successSleep (max 2 (min 15 60)) 60 ⟨[], some 10000, none⟩
      = max (successSleep 2 60 ⟨[], some 10000, none⟩) (max 2 (min 15 60)) :=
  poll_sleep_honors_server_and_quota.2.1 2 60 15 ⟨[], some 10000, none⟩
    (by norm_num)

/-- C2: a failed fetch sleeps `min(max(1, error_backoff), max_poll)`, doubles
the backoff capped at `max_poll` and leaves the page token unchanged; a
successful fetch resets the backoff to 1 before sleeping; with cap 60 the
failure sleeps from base 1 are `1, 2, 4, 8, ...` capped at 60, and the fetch
tokens never move while fetches keep failing. -/
theorem backoff_doubling_and_reset :
    (∀ (min_poll max_poll : ℚ) (on_message : Msg → Except Unit Unit)
        (env : Nat → Option ChatPage) (k : Nat) (page_token : Option String)
        (error_backoff : ℚ) (fuel : Nat),
      env k = none →
      pollLoop min_poll max_poll on_message env k page_token error_backoff
          (fuel + 1)
        = Effect.fetch page_token ::
            Effect.sleep (min (max 1 error_backoff) max_poll) ::
              pollLoop min_poll max_poll on_message env (k + 1) page_token
                (min (error_backoff * 2) max_poll) fuel) ∧
    (∀ (min_poll max_poll : ℚ) (on_message : Msg → Except Unit Unit)
        (env : Nat → Option ChatPage) (k : Nat) (page_token : Option String)
        (error_backoff : ℚ) (fuel : Nat) (page : ChatPage),
      env k = some page →
      pollLoop min_poll max_poll on_message env k page_token error_backoff
          (fuel + 1)
        = Effect.fetch page_token ::
            (page.items.map Effect.dispatch ++
              (Effect.sleep (successSleep min_poll max_poll page) ::
                pollLoop min_poll max_poll on_message env (k + 1)
                  page.nextPageToken 1 fuel))) ∧
    (∀ (min_poll : ℚ) (on_message : Msg → Except Unit Unit)
        (page_token : Option String) (fuel : Nat),
      sleepsOf (pollLoop min_poll 60 on_message (fun _ => none) 0 page_token
          1 fuel)
        = (List.range fuel).map fun n => min ((2 : ℚ) ^ n) 60) ∧
    (∀ (min_poll max_poll : ℚ) (on_message : Msg → Except Unit Unit)
        (page_token : Option String) (error_backoff : ℚ) (fuel : Nat),
      fetchTokens (pollLoop min_poll max_poll on_message (fun _ => none) 0
          page_token error_backoff fuel)
        = List.replicate fuel page_token) := by
  refine ⟨?_, ?_, ?_, ?_⟩
  · intro min_poll max_poll on_message env k page_token error_backoff fuel henv
    simpa [backoffSleep, backoffNext] using
      pollLoop_failure min_poll max_poll on_message env k page_token
        error_backoff fuel henv
  · intro min_poll max_poll on_message env k page_token error_backoff fuel
      page henv
    exact pollLoop_success min_poll max_poll on_message env k page_token
      error_backoff fuel page henv
  · intro min_poll on_message page_token fuel
    rw [sleepsOf_pollLoop_fail]
    refine List.map_congr_left fun n _ => ?_
    rw [backoffNext_iterate, backoffSleep,
      max_eq_right (le_min (one_le_pow₀ (by norm_num : (1 : ℚ) ≤ 2))
        (by norm_num)), min_assoc, min_self]
  · intro min_poll max_poll on_message page_token error_backoff fuel
    exact fetchTokens_pollLoop_fail min_poll max_poll on_message 0 page_token
      error_backoff fuel

/-- C2 witness: eight consecutive failures with cap 60 sleep
1, 2, 4, 8, 16, 32, 60, 60. -/
theorem backoff_doubling_and_reset_witness :
    sleepsOf (pollLoop 2 60 (fun _ => .ok ()) (fun _ => none) 0 none 1 8)
      = [1, 2, 4, 8, 16, 32, 60, 60] := by
  rw [backoff_doubling_and_reset.2.2.1 2 (fun _ => .ok ()) none 8]
  norm_num [List.range_succ]

/-- C3: the quota planner computes
`allowed_requests = max(1, floor(target_units / max(1, units_per_request)))`
and `interval = duration_seconds / allowed_requests`, clamped into the bounds;
the instance `(10000, 5, 10800)` gives 2000 requests and 5.4s, unchanged by
clamping into [2, 60]. -/
theorem quota_planner_formula (target_units units_per_request
    duration_seconds : ℤ) (hd : 0 < duration_seconds) :
    allowed_requests target_units units_per_request
        = max 1 ⌊(target_units : ℚ) / ((max 1 units_per_request : ℤ) : ℚ)⌋ ∧
    interval_by_quota target_units units_per_request duration_seconds
        = (duration_seconds : ℚ)
            / ((allowed_requests target_units units_per_request : ℤ) : ℚ) ∧
    allowed_requests 10000 5 = 2000 ∧
    interval_by_quota 10000 5 10800 = 27 / 5 ∧
    clamped_quota_interval 2 60 10000 5 10800 = 27 / 5 := by
  have h3 : allowed_requests 10000 5 = 2000 := by decide
  have h4 : interval_by_quota 10000 5 10800 = 27 / 5 := by
    rw [interval_by_quota, h3]
    norm_num
  refine ⟨?_, rfl, h3, h4, ?_⟩
  · rw [allowed_requests]
    congr 1
    have hb0 : (0 : ℤ) < max 1 units_per_request :=
      lt_of_lt_of_le one_pos (le_max_left 1 units_per_request)
    have hbn : (((max 1 units_per_request).toNat : ℕ) : ℤ)
        = max 1 units_per_request := Int.toNat_of_nonneg hb0.le
    have hfloor : ⌊(target_units : ℚ) / ((max 1 units_per_request : ℤ) : ℚ)⌋
        = target_units / max 1 units_per_request := by
      rw [← hbn]
      push_cast
      exact_mod_cast Rat.floor_intCast_div_natCast target_units
        (max 1 units_per_request).toNat
    rw [hfloor, Int.fdiv_eq_ediv target_units hb0.le]
  · rw [clamped_quota_interval, h4]
    norm_num

/-- C3 witness: the planner instance with a positive three-hour window. -/
theorem quota_planner_formula_witness :
    allowed_requests 10000 5 = 2000 ∧ interval_by_quota 10000 5 10800 = 27 / 5 :=
  ⟨(quota_planner_formula 10000 5 10800 (by norm_num)).2.2.1,
    (quota_planner_formula 10000 5 10800 (by norm_num)).2.2.2.1⟩

/-- C4: a handler exception on any message of a page is caught: every item of
the page is still dispatched to the handler, in order, no exception escapes,
and the successful iteration still adopts `nextPageToken` (and stays off the
backoff path, resetting the backoff to 1). -/
theorem handler_failure_isolation :
    (∀ (on_message : Msg → Except Unit Unit) (items : List Msg),
      dispatchAll on_message items = (items, none)) ∧
    (∀ (min_poll max_poll : ℚ) (on_message : Msg → Except Unit Unit)
        (env : Nat → Option ChatPage) (k : Nat) (page_token : Option String)
        (error_backoff : ℚ) (fuel : Nat) (page : ChatPage),
      env k = some page →
      pollLoop min_poll max_poll on_message env k page_token error_backoff
          (fuel + 1)
        = Effect.fetch page_token ::
            (page.items.map Effect.dispatch ++
              (Effect.sleep (successSleep min_poll max_poll page) ::
                pollLoop min_poll max_poll on_message env (k + 1)
                  page.nextPageToken 1 fuel))) :=
  ⟨dispatchAll_eq, fun min_poll max_poll on_message env k page_token
      error_backoff fuel page henv =>
    pollLoop_success min_poll max_poll on_message env k page_token
      error_backoff fuel page henv⟩

/-- C4 witness: a handler raising on message 2 of the page [1, 2, 3] still
receives 1 and 3, and the iteration emits all three dispatches. -/
theorem handler_failure_isolation_witness :
    dispatchAll (fun m => if m = 2 then .error () else .ok ()) [1, 2, 3]
        = ([1, 2, 3], none) ∧
    pollLoop 2 60 (fun m => if m = 2 then .error () else .ok ())
        (fun _ => some ⟨[1, 2, 3], none, some "tok2"⟩) 0 none 1 1
      = [Effect.fetch none, Effect.dispatch 1, Effect.dispatch 2,
          Effect.dispatch 3, Effect.sleep 2] := by
  constructor
  · exact handler_failure_isolation.1 _ [1, 2, 3]
  · rw [handler_failure_isolation.2 2 60
      (fun m => if m = 2 then .error () else .ok ())
      (fun _ => some ⟨[1, 2, 3], none, some "tok2"⟩) 0 none 1 0
      ⟨[1, 2, 3], none, some "tok2"⟩ rfl]
    norm_num [successSleep, clampPolling, pollLoop]

/-- C8 counterexample: in a two-iteration run of `poll_chat` with successful
fetches, the trace holds two fetches but a single refresh, so it is false
that every fetch is preceded by a credential-gate call in its own iteration. -/
theorem refresh_each_iteration_counterexample :
    ¬ refreshEachIteration
        (poll_chat 2 60 (fun _ => .ok ()) (fun _ => some ⟨[], none, none⟩)
          (some "chat") none none none 2).1 := by
  simp only [refreshEachIteration]
  decide

/-- C8 (amended): `poll_chat` consults the credential gate exactly once, at
entry before the first fetch; the loop iterations never consult it again. -/
theorem refresh_once_before_loop (cfgMin cfgMax : ℚ)
    (on_message : Msg → Except Unit Unit) (env : Nat → Option ChatPage)
    (live_chat_id : Option String) (start_page_token : Option String)
    (mp Mp : Option ℚ) (fuel : Nat) (hid : truthy live_chat_id = true) :
    countRefresh (poll_chat cfgMin cfgMax on_message env live_chat_id
        start_page_token mp Mp fuel).1 = 1 ∧
    (poll_chat cfgMin cfgMax on_message env live_chat_id start_page_token
        mp Mp fuel).1.head? = some Effect.refresh := by
  constructor
  · simp [poll_chat, hid, countRefresh_cons_refresh, countRefresh_pollLoop]
  · simp [poll_chat, hid]

/-- C8 witness: the same concrete two-iteration run refreshes exactly once. -/
theorem refresh_once_before_loop_witness :
    countRefresh (poll_chat 2 60 (fun _ => .ok ())
        (fun _ => some ⟨[], none, none⟩) (some "chat") none none none 2).1
      = 1 :=
  (refresh_once_before_loop 2 60 (fun _ => .ok ())
    (fun _ => some ⟨[], none, none⟩) (some "chat") none none none 2 rfl).1

end AxiBot
